import Mathlib

/-!
# Verification of the game state store (`src/store.ts`)

A shallow embedding of the zustand game store of the repository.  JavaScript
numbers are modelled by `ℚ` (all arithmetic the store performs on the values
the claims are about is addition, subtraction, `min`/`max` clamping and
comparison, which are exact); `Math.random()` is modelled by an explicit
stream of rationals threaded through the generators (`RNG`); `Math.sin` is an
opaque float function and is modelled by an explicit function parameter where
it occurs; angles produced as multiples of `Math.PI` are recorded via the
rational value of the IEEE double `Math.PI`.  Fire-and-forget audio calls
(`playBubblePop`, …) have no effect on the store state and are dropped.
Zustand's `set` merges a partial record into the state, which is modelled by
a record update `{ s with … }` listing exactly the fields the source passes
to `set`.
-/

/-- A 3-vector of numbers (`[number, number, number]` / `THREE.Vector3`). -/
structure V3 where
  x : ℚ
  y : ℚ
  z : ℚ
deriving DecidableEq, Repr

/-- `interface NodeData` of `src/store.ts`. -/
structure NodeData where
  id : String
  position : V3
  connected : Bool
deriving DecidableEq, Repr

/-- `type LevelType` of `src/store.ts`. -/
inductive LevelType where
  | PROLOGUE | CHAPTER_1 | NAME | CHEWING | WIND | TRAVEL | CONNECTION | HOME | SUN
deriving DecidableEq, Repr

/-- `type InteractionMode` of `src/store.ts`. -/
inductive InteractionMode where
  | SLINGSHOT | LURE | OBSERVER | CLICK
deriving DecidableEq, Repr

/-- The closed tag enum of `EnvFeature.type`. -/
inductive FeatureType where
  | WALL | FLESH_TUNNEL | ORGANIC_PLATFORM | LAKE | DECORATION | EXIT_GATE
  | BUBBLE | FRAGMENT | FLESH_BALL | WIND_EMITTER | WITHERED_LEAF | EMOTION_ORB | SUN | MUSHROOM
deriving DecidableEq, Repr

/-- The `data?: any` payloads actually stored on features by `src/store.ts`:
`{ text: … }` (bubbles), `{ type: … }` (emotion orbs), `{ char: … }`
(fragments). -/
inductive FeatureData where
  | text (s : String)
  | orbType (s : String)
  | char (s : String)
deriving DecidableEq, Repr

/-- `interface EnvFeature` of `src/store.ts`. -/
structure EnvFeature where
  id : String
  type : FeatureType
  position : V3
  scale : V3
  rotation : Option V3 := none
  color : Option String := none
  data : Option FeatureData := none
deriving DecidableEq, Repr

/-- The state fields of `interface GameState` (`src/store.ts`).  The action
closures of the store are modelled as top-level functions on this record. -/
structure GameState where
  currentLevel : LevelType
  interactionMode : InteractionMode
  narrativeIndex : ℕ
  nodes : List NodeData
  connections : List (String × String)
  envFeatures : List EnvFeature
  playerPos : V3
  cursorWorldPos : V3
  isMouseDown : Bool
  hoveredNodeId : Option String
  draggingNodeId : Option String
  isInteractiveHover : Bool
  sequenceOrder : List String
  nextSequenceIndex : ℕ
  tetheredNodeId : Option String
  bubblesPopped : ℕ
  fragmentsCollected : ℕ
  playerScale : ℚ
  leafHealth : ℚ
  lastBlockTime : ℚ
  rainLevel : ℚ
  isRaining : Bool
  isLevelComplete : Bool
deriving DecidableEq, Repr

/-- The ambient `Math.random()` stream: an infinite supply of rationals
(each call of the source consumes the next one), together with a cursor. -/
structure RNG where
  vals : ℕ → ℚ
  idx : ℕ

/-- Draw the next `Math.random()` value. -/
def RNG.next (r : RNG) : ℚ × RNG := (r.vals r.idx, { r with idx := r.idx + 1 })

/-- The exact rational value of the IEEE-754 double `Math.PI`. -/
def piQ : ℚ := 884279719003555 / 281474976710656

/-- `Math.min` on (finite, non-NaN) numbers, written out so that it is
kernel-computable on `ℚ`. -/
def jsMin (a b : ℚ) : ℚ := if a ≤ b then a else b

/-- `Math.max` on (finite, non-NaN) numbers, written out so that it is
kernel-computable on `ℚ`. -/
def jsMax (a b : ℚ) : ℚ := if a ≤ b then b else a

/-- `jsMin` is the lattice `min` of `ℚ`. -/
theorem jsMin_eq_min (a b : ℚ) : jsMin a b = min a b := (min_def a b).symm

/-- `jsMax` is the lattice `max` of `ℚ`. -/
theorem jsMax_eq_max (a b : ℚ) : jsMax a b = max a b := (max_def a b).symm

-- ---------------------------------------------------------------------------
-- Simple actions
-- ---------------------------------------------------------------------------

/-- `setHoveredNode: (id) => set({ hoveredNodeId: id })`. -/
def setHoveredNode (s : GameState) (id : Option String) : GameState :=
  { s with hoveredNodeId := id }

/-- `startDragConnection: (id) => set({ draggingNodeId: id })`. -/
def startDragConnection (s : GameState) (id : String) : GameState :=
  { s with draggingNodeId := some id }

/-- `cancelDrag: () => set({ draggingNodeId: null })`. -/
def cancelDrag (s : GameState) : GameState :=
  { s with draggingNodeId := none }

/-- `setTetheredNode: (id) => set({ tetheredNodeId: id })`. -/
def setTetheredNode (s : GameState) (id : Option String) : GameState :=
  { s with tetheredNodeId := id }

/-- `selectVehicle` (`src/store.ts` lines 436–440): only `'TEAR'` completes
the level; any other argument falls through the `if` and touches nothing. -/
def selectVehicle (s : GameState) (type : String) : GameState :=
  if type = "TEAR" then { s with isLevelComplete := true, narrativeIndex := 1 } else s

/-- `absorbFragment` (`src/store.ts` lines 359–371): removes the feature with
the given id (a filter, so removing nothing when no feature matches),
increments the fragment counter, and recomputes completion as `count >= 5`. -/
def absorbFragment (s : GameState) (id : String) : GameState :=
  let newEnv := s.envFeatures.filter (fun f => !decide (f.id = id))
  let count := s.fragmentsCollected + 1
  let isComplete := decide (5 ≤ count)
  { s with envFeatures := newEnv,
           fragmentsCollected := count,
           isLevelComplete := isComplete,
           narrativeIndex := if isComplete then 1 else s.narrativeIndex }

/-- `growPlayer` (`src/store.ts` lines 381–409): clamp the scale at 10, then
apply the CHEWING narrative/completion thresholds and the WIND narrative
threshold. -/
def growPlayer (s : GameState) (amount : ℚ) : GameState :=
  let newScale := jsMin (s.playerScale + amount) 10
  -- CHEWING logic
  let isComplete := s.currentLevel = LevelType.CHEWING ∧ 8 < newScale
  let n1 : ℕ :=
    if s.currentLevel = LevelType.CHEWING ∧ 3 < newScale ∧ s.narrativeIndex < 2
    then 2 else s.narrativeIndex
  let n2 : ℕ := if isComplete then 3 else n1
  -- WIND logic
  let n3 : ℕ :=
    if s.currentLevel = LevelType.WIND ∧ 3 < newScale ∧ s.narrativeIndex = 0
    then 1 else n2
  { s with playerScale := newScale,
           isLevelComplete := if isComplete then true else s.isLevelComplete,
           narrativeIndex := n3 }

/-- `damageLeaf` (`src/store.ts` lines 411–414): a no-op once the level is
complete, otherwise clamp the decreased health at 0. -/
def damageLeaf (s : GameState) (amount : ℚ) : GameState :=
  if s.isLevelComplete then s
  else { s with leafHealth := jsMax (s.leafHealth - amount) 0 }

/-- `healLeaf` (`src/store.ts` lines 416–430): a no-op once the level is
complete; otherwise clamp the increased health at 100, and when it reaches
100 set health, completion and the narrative checkpoint in one `set`. -/
def healLeaf (s : GameState) (amount : ℚ) : GameState :=
  if s.isLevelComplete then s
  else
    let newHealth := jsMin (s.leafHealth + amount) 100
    if 100 ≤ newHealth ∧ ¬s.isLevelComplete then
      { s with leafHealth := newHealth, isLevelComplete := true, narrativeIndex := 2 }
    else
      { s with leafHealth := newHealth }

/-- One loop iteration of `popBubble` (`src/store.ts` lines 340–354): a
FRAGMENT feature at a small random offset from the popped bubble's position
(rotation z is `Math.random() * Math.PI`, the glyph a random stroke).  Each
fragment consumes four `Math.random()` draws, in source evaluation order:
position x offset, position z offset, rotation, stroke choice. -/
def mkFragment (bubble : EnvFeature) (id : String) (i : ℕ) (r0 : RNG) : EnvFeature × RNG :=
  let strokes : List String := ["丿", "丶", "一", "丨", "乙", "乀"]
  let (rx, r1) := r0.next
  let (rz, r2) := r1.next
  let (rr, r3) := r2.next
  let (rc, r4) := r3.next
  ({ id := "frag-" ++ id ++ "-" ++ toString i,
     type := FeatureType.FRAGMENT,
     position := ⟨bubble.position.x + (rx - 1/2), 1/5, bubble.position.z + (rz - 1/2)⟩,
     scale := ⟨1/2, 1/2, 1/2⟩,
     color := some "#e0a0ff",
     rotation := some ⟨-(piQ/2), 0, rr * piQ⟩,
     data := some (FeatureData.char (strokes.getD (⌊rc * strokes.length⌋).toNat "丿")) }, r4)

/-- `popBubble` itself: remove the bubble, append the three fragments built
by `mkFragment`, threading the `Math.random()` stream through the loop. -/
def popBubble (s : GameState) (id : String) (r : RNG) : GameState :=
  match s.envFeatures.find? (fun f => decide (f.id = id)) with
  | none => s
  | some bubble =>
    let newEnv := s.envFeatures.filter (fun f => !decide (f.id = id))
    let f0 := (mkFragment bubble id 0 r).1
    let r1 := (mkFragment bubble id 0 r).2
    let f1 := (mkFragment bubble id 1 r1).1
    let r2 := (mkFragment bubble id 1 r1).2
    let f2 := (mkFragment bubble id 2 r2).1
    { s with envFeatures := newEnv ++ [f0, f1, f2],
             bubblesPopped := s.bubblesPopped + 1,
             isInteractiveHover := false }

-- ---------------------------------------------------------------------------
-- Connections (`completeConnection`, `src/store.ts` lines 468–514)
-- ---------------------------------------------------------------------------

/-- The duplicate test of line 476: does the unordered pair
`(sourceId, targetId)` already occur in the connection list? -/
def connMatches (sourceId targetId : String) (c : String × String) : Bool :=
  decide ((c.1 = sourceId ∧ c.2 = targetId) ∨ (c.1 = targetId ∧ c.2 = sourceId))

/-- The commit branch of `completeConnection` (lines 487–510): append the
connection, flag both endpoint nodes, recompute completion from the set of
ids occurring in connections (`new Set(newConnections.flat())`), advance the
sequence cursor on CHAPTER_1, and update the narrative index. -/
def commitConnection (s : GameState) (sourceId targetId : String) : GameState :=
  let newConnections := s.connections ++ [(sourceId, targetId)]
  let newNodes := s.nodes.map (fun n =>
    if n.id = sourceId ∨ n.id = targetId then { n with connected := true } else n)
  let connectedSet := (newConnections.flatMap (fun c => [c.1, c.2])).dedup
  let isComplete := decide (s.nodes.length ≤ connectedSet.length ∧ 0 < s.nodes.length)
  let newSeqIndex :=
    if s.currentLevel = LevelType.CHAPTER_1 then s.nextSequenceIndex + 1 else s.nextSequenceIndex
  let newNarrativeIndex : ℕ :=
    if s.currentLevel = LevelType.CONNECTION then
      if isComplete then 2
      else if s.narrativeIndex = 0 ∧ 0 < newConnections.length then 1
      else s.narrativeIndex
    else s.narrativeIndex + 1
  { s with connections := newConnections,
           nodes := newNodes,
           draggingNodeId := none,
           narrativeIndex := newNarrativeIndex,
           isLevelComplete := isComplete,
           nextSequenceIndex := newSeqIndex }

/-- `completeConnection` (`src/store.ts` lines 468–514).  The source id is
the tethered node on the CONNECTION level and the dragged node otherwise;
the attempt is silently dropped (drag state cleared) when there is no
source, the source equals the target, the unordered pair already exists, or
the CHAPTER_1 sequencing check fails.  `sequenceOrder[i]` out of range gives
`undefined` in the source, modelled by the optional index `[i]?`.  (The
source's `!sourceId` is JS falsiness, which would also catch an empty-string
id; ids produced by the generators are never empty, so the `Option` match
models it.) -/
def completeConnection (s : GameState) (targetId : String) : GameState :=
  let sourceId :=
    if s.currentLevel = LevelType.CONNECTION then s.tetheredNodeId else s.draggingNodeId
  match sourceId with
  | none => { s with draggingNodeId := none }
  | some src =>
    if src = targetId then { s with draggingNodeId := none }
    else if s.connections.any (connMatches src targetId) then { s with draggingNodeId := none }
    else if s.currentLevel = LevelType.CHAPTER_1 then
      match s.sequenceOrder[s.nextSequenceIndex]?, s.sequenceOrder[s.nextSequenceIndex + 1]? with
      | some currentSource, some currentTarget =>
        if (src = currentSource ∧ targetId = currentTarget) ∨
           (src = currentTarget ∧ targetId = currentSource)
        then commitConnection s src targetId
        else { s with draggingNodeId := none }
      | _, _ => { s with draggingNodeId := none }
    else commitConnection s src targetId

-- ---------------------------------------------------------------------------
-- Rain ramp (`triggerRain`, `src/store.ts` lines 442–466)
-- ---------------------------------------------------------------------------

/-- The `{ nodes, env }` record returned by every generator. -/
structure GenResult where
  nodes : List NodeData
  env : List EnvFeature
deriving Repr

/-- `generatePrologueEnv` (lines 101–111): 14 pairs of narrowing tunnel
segments plus the exit gate.  Deterministic. -/
def generatePrologueEnv : GenResult :=
  let env := (List.range 14).flatMap (fun i =>
    let z : ℚ := -12 + i * 2
    let width : ℚ := 3 - i * (1/10)
    [{ id := "canal-l-" ++ toString i, type := FeatureType.FLESH_TUNNEL,
       position := ⟨-width, 1, z⟩, scale := ⟨2, 4, 2⟩,
       rotation := some ⟨0, 0, -(1/5)⟩, color := some "#d88" },
     { id := "canal-r-" ++ toString i, type := FeatureType.FLESH_TUNNEL,
       position := ⟨width, 1, z⟩, scale := ⟨2, 4, 2⟩,
       rotation := some ⟨0, 0, 1/5⟩, color := some "#d88" }])
  { nodes := [],
    env := env ++ [{ id := "exit-gate", type := FeatureType.EXIT_GATE,
                     position := ⟨0, 2, 16⟩, scale := ⟨1, 1, 1⟩, color := some "#fff" }] }

/-- `generateLevel1Env` (lines 113–120): six nodes at fixed positions plus
eight random decorative spores (two `Math.random()` draws each). -/
def generateLevel1Env (r : RNG) : GenResult :=
  let positions : List (ℚ × ℚ × ℚ) := [(-4,0,-4), (0,0,-2), (4,0,-4), (-2,0,2), (2,0,2), (0,0,5)]
  let nodes := positions.enum.map (fun p =>
    { id := "n1-" ++ toString p.1, position := ⟨p.2.1, 1/2, p.2.2.2⟩, connected := false })
  let env := ((List.range 8).foldl (fun (acc : List EnvFeature × RNG) i =>
    let (rx, r1) := acc.2.next
    let (rz, r2) := r1.next
    (acc.1 ++ [{ id := "spore-" ++ toString i, type := FeatureType.DECORATION,
                 position := ⟨(rx - 1/2) * 15, 0, (rz - 1/2) * 15⟩,
                 scale := ⟨1/2, 1/2, 1/2⟩, color := some "#e6e6fa" }], r2)) ([], r)).1
  { nodes := nodes, env := env }

/-- `generateNameEnv` (lines 122–136): 15 floating text bubbles at random
positions, each tagged with a random CJK character (`String.fromCharCode`
is `Char.ofNat`; four `Math.random()` draws per bubble, in source order
x, y, z, character). -/
def generateNameEnv (r : RNG) : GenResult :=
  let env := ((List.range 15).foldl (fun (acc : List EnvFeature × RNG) i =>
    let (rx, r1) := acc.2.next
    let (ry, r2) := r1.next
    let (rz, r3) := r2.next
    let (rc, r4) := r3.next
    (acc.1 ++ [{ id := "bubble-" ++ toString i, type := FeatureType.BUBBLE,
                 position := ⟨(rx - 1/2) * 12, 1 + ry * 2, (rz - 1/2) * 12⟩,
                 scale := ⟨4/5, 4/5, 4/5⟩, color := some "#e6e6fa",
                 data := some (FeatureData.text
                   (String.singleton (Char.ofNat (0x4e00 + (⌊rc * 100⌋).toNat)))) }], r4))
    ([], r)).1
  { nodes := [], env := env }

/-- `generateChewingEnv` (lines 138–151): 20 flesh balls along a corridor
(four `Math.random()` draws each: position x, then the three scales). -/
def generateChewingEnv (r : RNG) : GenResult :=
  let env := ((List.range 20).foldl (fun (acc : List EnvFeature × RNG) i =>
    let (rx, r1) := acc.2.next
    let (sx, r2) := r1.next
    let (sy, r3) := r2.next
    let (sz, r4) := r3.next
    (acc.1 ++ [{ id := "fleshball-" ++ toString i, type := FeatureType.FLESH_BALL,
                 position := ⟨(rx - 1/2) * 3, 1/2, -5 + i * (3/2)⟩,
                 scale := ⟨1 + sx, 1 + sy, 1 + sz⟩, color := some "#ff9999" }], r4))
    ([], r)).1
  { nodes := [], env := env }

/-- `generateWindEnv` (lines 153–160).  Deterministic. -/
def generateWindEnv : GenResult :=
  { nodes := [],
    env := [{ id := "wind-emitter", type := FeatureType.WIND_EMITTER,
              position := ⟨0, 2, -15⟩, scale := ⟨1, 1, 1⟩, color := some "#fff" },
            { id := "withered-leaf", type := FeatureType.WITHERED_LEAF,
              position := ⟨0, 1/10, 8⟩, scale := ⟨3, 3, 3⟩, color := some "#8b4513" }] }

/-- `generateTravelEnv` (lines 162–174): the four emotion orbs.
Deterministic. -/
def generateTravelEnv : GenResult :=
  { nodes := [],
    env := [{ id := "orb-happy", type := FeatureType.EMOTION_ORB, position := ⟨-5, 4/5, -5⟩,
              scale := ⟨2, 2, 2⟩, color := some "#ffd700", data := some (FeatureData.orbType "HAPPY") },
            { id := "orb-angry", type := FeatureType.EMOTION_ORB, position := ⟨5, 4/5, -5⟩,
              scale := ⟨2, 2, 2⟩, color := some "#ff4500", data := some (FeatureData.orbType "ANGRY") },
            { id := "orb-envy", type := FeatureType.EMOTION_ORB, position := ⟨-5, 4/5, 5⟩,
              scale := ⟨2, 2, 2⟩, color := some "#800080", data := some (FeatureData.orbType "ENVY") },
            { id := "orb-tear", type := FeatureType.EMOTION_ORB, position := ⟨5, 4/5, 5⟩,
              scale := ⟨2, 2, 2⟩, color := some "#00bfff", data := some (FeatureData.orbType "TEAR") }] }

/-- Squared euclidean distance; the source's
`Math.sqrt(Math.pow(..,2)+Math.pow(..,2)+Math.pow(..,2)) < 4.0` test is
embedded as the equivalent `dist2 < 16`. -/
def dist2 (p q : V3) : ℚ := (p.x - q.x)^2 + (p.y - q.y)^2 + (p.z - q.z)^2

/-- The `while (!valid && attempts < 20)` placement loop of
`generateConnectionEnv` (lines 190–219), with the attempt budget as fuel:
each attempt draws the three jitters and re-checks the 4.0-unit minimum
separation against the nodes placed so far. -/
def connPlaceLoop (msin : ℚ → ℚ) (nodes : List NodeData) (t : ℚ) :
    ℕ → V3 → Bool → RNG → V3 × RNG
  | 0, pos, _, r => (pos, r)
  | Nat.succ fuel, pos, valid, r =>
    if valid then (pos, r)
    else
      let curveX := msin (t * piQ * (3/2)) * 5
      let curveZ := 8 - t * 16
      let (jx, r1) := r.next
      let (jy, r2) := r1.next
      let (jz, r3) := r2.next
      let p : V3 := ⟨curveX + (jx - 1/2) * 4, 1/2 + jy * 5, curveZ + (jz - 1/2) * 4⟩
      let valid2 := nodes.all (fun n => !decide (dist2 p n.position < 16))
      connPlaceLoop msin nodes t fuel p valid2 r3

/-- `generateConnectionEnv` (lines 176–251): a random node count in [6,9]
placed along a jittered spine curve (with the retry loop above and its
"place it anyway" fallback), a 60% chance of a support platform per node,
and five unconditional debris features.  `Math.sin` is the abstract float
function `msin`. -/
def generateConnectionEnv (msin : ℚ → ℚ) (r : RNG) : GenResult :=
  let (c0, r0) := r.next
  let count := (⌊c0 * 4⌋ + 6).toNat
  let step := fun (acc : List NodeData × List EnvFeature × RNG) (i : ℕ) =>
    let (nodes, env, rr) := acc
    let t : ℚ := (i : ℚ) / ((count : ℚ) - 1)
    let (pos, r1) := connPlaceLoop msin nodes t 20 ⟨0, 0, 0⟩ false rr
    let nodes2 := nodes ++ [{ id := "n2-rnd-" ++ toString i, position := pos, connected := false }]
    let (chance, r2) := r1.next
    if chance < 3/5 then
      let (ps, r3) := r2.next
      let pScale := 3/2 + ps * 3
      let (ox, r4) := r3.next
      let (oz, r5) := r4.next
      let (sy, r6) := r5.next
      (nodes2,
       env ++ [{ id := "plat-rnd-" ++ toString i, type := FeatureType.ORGANIC_PLATFORM,
                 position := ⟨pos.x + (ox - 1/2), jsMax (1/5) (pos.y - 1), pos.z + (oz - 1/2)⟩,
                 scale := ⟨pScale, 1/5 + sy * (2/5), pScale⟩, color := some "#fff0f5" }], r6)
    else (nodes2, env, r2)
  let folded := (List.range count).foldl step ([], [], r0)
  let debris := ((List.range 5).foldl (fun (acc : List EnvFeature × RNG) j =>
    let (dx, r1) := acc.2.next
    let (dy, r2) := r1.next
    let (dz, r3) := r2.next
    (acc.1 ++ [{ id := "debris-" ++ toString j, type := FeatureType.ORGANIC_PLATFORM,
                 position := ⟨(dx - 1/2) * 15, 2 + dy * 5, (dz - 1/2) * 15⟩,
                 scale := ⟨1/2, 1/2, 1/2⟩, color := some "#fffff0" }], r3))
    ([], folded.2.2)).1
  { nodes := folded.1, env := folded.2.1 ++ debris }

/-- `generateHomeEnv` (lines 253–257).  Deterministic. -/
def generateHomeEnv : GenResult :=
  { nodes := [],
    env := [{ id := "lake", type := FeatureType.LAKE, position := ⟨0, -2, -15⟩,
              scale := ⟨30, 1, 30⟩, color := some "#ffffff" }] }

/-- `generateSunEnv` (lines 259–266).  Deterministic. -/
def generateSunEnv : GenResult :=
  { nodes := [],
    env := [{ id := "the-sun", type := FeatureType.SUN, position := ⟨0, 10, -20⟩,
              scale := ⟨8, 8, 8⟩, color := some "#ff0000" },
            { id := "mushroom", type := FeatureType.MUSHROOM, position := ⟨0, 1/2, 2⟩,
              scale := ⟨1, 1, 1⟩, color := some "#f0e68c" }] }

/-- `START_POSITIONS` (lines 268–278). -/
def START_POSITIONS : LevelType → V3
  | LevelType.PROLOGUE => ⟨0, 1/2, -12⟩
  | LevelType.CHAPTER_1 => ⟨0, 1/2, 8⟩
  | LevelType.NAME => ⟨0, 1/2, 0⟩
  | LevelType.CHEWING => ⟨0, 1/2, -8⟩
  | LevelType.WIND => ⟨0, 1/2, 0⟩
  | LevelType.TRAVEL => ⟨0, 1/2, 0⟩
  | LevelType.CONNECTION => ⟨0, 1/2, 8⟩
  | LevelType.HOME => ⟨0, 1/2, 5⟩
  | LevelType.SUN => ⟨0, 1/2, 5⟩

/-- `startLevel` (`src/store.ts` lines 519–562): select the generator, the
interaction mode (SLINGSHOT for PROLOGUE, OBSERVER for HOME, CLICK for SUN,
the initial `let mode = 'LURE'` otherwise) and, on CHAPTER_1, the sequence
order; then merge the single large reset `set`.  The merge lists exactly
the fields of the source's `set` call — in particular `hoveredNodeId` and
`isMouseDown` are not among them and keep their previous values. -/
def startLevel (msin : ℚ → ℚ) (r : RNG) (s : GameState) (level : LevelType) : GameState :=
  let genResult : GenResult :=
    match level with
    | LevelType.PROLOGUE => generatePrologueEnv
    | LevelType.CHAPTER_1 => generateLevel1Env r
    | LevelType.NAME => generateNameEnv r
    | LevelType.CHEWING => generateChewingEnv r
    | LevelType.WIND => generateWindEnv
    | LevelType.TRAVEL => generateTravelEnv
    | LevelType.CONNECTION => generateConnectionEnv msin r
    | LevelType.HOME => generateHomeEnv
    | LevelType.SUN => generateSunEnv
  let mode : InteractionMode :=
    match level with
    | LevelType.PROLOGUE => InteractionMode.SLINGSHOT
    | LevelType.HOME => InteractionMode.OBSERVER
    | LevelType.SUN => InteractionMode.CLICK
    | _ => InteractionMode.LURE
  let seq : List String :=
    match level with
    | LevelType.CHAPTER_1 => genResult.nodes.map (fun n => n.id)
    | _ => []
  let startP := START_POSITIONS level
  { s with currentLevel := level,
           interactionMode := mode,
           nodes := genResult.nodes,
           envFeatures := genResult.env,
           connections := [],
           playerPos := startP,
           cursorWorldPos := startP,
           isLevelComplete := false,
           narrativeIndex := 0,
           draggingNodeId := none,
           sequenceOrder := seq,
           nextSequenceIndex := 0,
           tetheredNodeId := none,
           bubblesPopped := 0,
           fragmentsCollected := 0,
           playerScale := 1,
           leafHealth := 0,
           lastBlockTime := 0,
           rainLevel := 0,
           isRaining := false,
           isInteractiveHover := false }

/-- The initial store state (`src/store.ts` lines 281–309). -/
def initialState : GameState :=
  { currentLevel := LevelType.PROLOGUE,
    interactionMode := InteractionMode.SLINGSHOT,
    narrativeIndex := 0,
    nodes := [],
    connections := [],
    envFeatures := [],
    playerPos := ⟨0, 1/2, -12⟩,
    cursorWorldPos := ⟨0, 0, 0⟩,
    isMouseDown := false,
    hoveredNodeId := none,
    draggingNodeId := none,
    isInteractiveHover := false,
    sequenceOrder := [],
    nextSequenceIndex := 0,
    tetheredNodeId := none,
    bubblesPopped := 0,
    fragmentsCollected := 0,
    playerScale := 1,
    leafHealth := 0,
    lastBlockTime := 0,
    rainLevel := 0,
    isRaining := false,
    isLevelComplete := false }

-- ---------------------------------------------------------------------------
-- Helper lemmas
-- ---------------------------------------------------------------------------

/-- A `foldl` of `growPlayer` over non-negative amounts keeps the scale in
`[1, 10]`. -/
theorem growPlayer_foldl_bounds (amounts : List ℚ) (s : GameState)
    (h1 : 1 ≤ s.playerScale) (h10 : s.playerScale ≤ 10)
    (hpos : ∀ a ∈ amounts, 0 ≤ a) :
    1 ≤ (amounts.foldl growPlayer s).playerScale ∧
      (amounts.foldl growPlayer s).playerScale ≤ 10 := by
  induction amounts generalizing s with
  | nil => exact ⟨h1, h10⟩
  | cons a tl ih =>
    have ha : 0 ≤ a := hpos a (List.mem_cons_self a tl)
    have h1' : 1 ≤ (growPlayer s a).playerScale := by
      show 1 ≤ min (s.playerScale + a) 10
      exact le_min (by linarith) (by norm_num)
    have h10' : (growPlayer s a).playerScale ≤ 10 := min_le_right _ _
    exact ih _ h1' h10' (fun b hb => hpos b (List.mem_cons_of_mem _ hb))

-- ---------------------------------------------------------------------------
-- C8
-- ---------------------------------------------------------------------------

/-- C8: `selectVehicle(type)` sets `isLevelComplete` to `true` (together
with its narrative checkpoint, index 1) exactly when `type` is `'TEAR'`;
for every other input string it returns the state unchanged — an explicit
no-op, not an error. -/
theorem c8_selectVehicle_only_tear (s : GameState) (type : String) :
    (type = "TEAR" → selectVehicle s type =
      { s with isLevelComplete := true, narrativeIndex := 1 }) ∧
    (type ≠ "TEAR" → selectVehicle s type = s) := by
  constructor
  · intro h; simp [selectVehicle, h]
  · intro h; simp [selectVehicle, h]

/-- Witness for C8, Scenario F of the spec: on a freshly started TRAVEL
level, `selectVehicle('HAPPY')` changes nothing, `selectVehicle('TEAR')`
completes the level. -/
theorem c8_witness :
    ("HAPPY" : String) ≠ "TEAR" ∧
    selectVehicle (startLevel (fun _ => 0) ⟨fun _ => 1/2, 0⟩ initialState LevelType.TRAVEL)
        "HAPPY"
      = startLevel (fun _ => 0) ⟨fun _ => 1/2, 0⟩ initialState LevelType.TRAVEL ∧
    (selectVehicle (startLevel (fun _ => 0) ⟨fun _ => 1/2, 0⟩ initialState LevelType.TRAVEL)
        "TEAR").isLevelComplete = true := by
  refine ⟨by decide, (c8_selectVehicle_only_tear _ "HAPPY").2 (by decide), ?_⟩
  rw [(c8_selectVehicle_only_tear
    (startLevel (fun _ => 0) ⟨fun _ => 1/2, 0⟩ initialState LevelType.TRAVEL) "TEAR").1 rfl]

-- ---------------------------------------------------------------------------
-- C10
-- ---------------------------------------------------------------------------

/-- C10: `absorbFragment(id)` increments `fragmentsCollected` by exactly 1
for every id — including ids matching no feature — and sets
`isLevelComplete` exactly when the new counter reaches 5; when no feature
carries the id, `envFeatures` is left unchanged while the counter (and any
completion it triggers) still advances. -/
theorem c10_absorbFragment_always_counts (s : GameState) (id : String) :
    (absorbFragment s id).fragmentsCollected = s.fragmentsCollected + 1 ∧
    ((absorbFragment s id).isLevelComplete = true ↔ 5 ≤ s.fragmentsCollected + 1) ∧
    ((∀ f ∈ s.envFeatures, f.id ≠ id) →
      (absorbFragment s id).envFeatures = s.envFeatures) := by
  refine ⟨rfl, by simp [absorbFragment], ?_⟩
  intro h
  show s.envFeatures.filter (fun f => !decide (f.id = id)) = s.envFeatures
  exact List.filter_eq_self.mpr (fun f hf => by simp [h f hf])

/-- Witness for C10: absorbing a non-existent fragment id on the freshly
started NAME level still advances the counter and leaves the features
untouched. -/
theorem c10_witness :
    (∀ f ∈ (startLevel (fun _ => 0) ⟨fun _ => 1/2, 0⟩ initialState LevelType.NAME).envFeatures,
        f.id ≠ "no-such-id") ∧
    (absorbFragment (startLevel (fun _ => 0) ⟨fun _ => 1/2, 0⟩ initialState LevelType.NAME)
        "no-such-id").envFeatures
      = (startLevel (fun _ => 0) ⟨fun _ => 1/2, 0⟩ initialState LevelType.NAME).envFeatures ∧
    (absorbFragment (startLevel (fun _ => 0) ⟨fun _ => 1/2, 0⟩ initialState LevelType.NAME)
        "no-such-id").fragmentsCollected
      = (startLevel (fun _ => 0) ⟨fun _ => 1/2, 0⟩ initialState
          LevelType.NAME).fragmentsCollected + 1 := by
  refine ⟨by decide, (c10_absorbFragment_always_counts _ "no-such-id").2.2 (by decide),
    (c10_absorbFragment_always_counts _ "no-such-id").1⟩

-- ---------------------------------------------------------------------------
-- C5
-- ---------------------------------------------------------------------------

/-- C5: for every sequence of `growPlayer` calls with non-negative amounts
starting from a scale in `[1, 10]` (a freshly started level has scale 1),
the scale stays in `[1, 10]`; a single call never decreases the scale; and
`growPlayer(100)` from scale 1 yields exactly 10. -/
theorem c5_growPlayer_scale_bounds (s : GameState) (amounts : List ℚ) :
    (1 ≤ s.playerScale → s.playerScale ≤ 10 → (∀ a ∈ amounts, 0 ≤ a) →
      1 ≤ (amounts.foldl growPlayer s).playerScale ∧
        (amounts.foldl growPlayer s).playerScale ≤ 10) ∧
    (∀ a : ℚ, 0 ≤ a → s.playerScale ≤ 10 →
      s.playerScale ≤ (growPlayer s a).playerScale) ∧
    (s.playerScale = 1 → (growPlayer s 100).playerScale = 10) := by
  refine ⟨fun h1 h10 hpos => growPlayer_foldl_bounds amounts s h1 h10 hpos, ?_, ?_⟩
  · intro a ha h10
    show s.playerScale ≤ min (s.playerScale + a) 10
    exact le_min (by linarith) h10
  · intro h1
    show min (s.playerScale + 100) 10 = 10
    rw [h1]
    norm_num

/-- Witness for C5 on a freshly started CHEWING level: scale starts at 1 and
a single `growPlayer(100)` saturates it at exactly 10. -/
theorem c5_witness :
    (1 : ℚ) ≤ (startLevel (fun _ => 0) ⟨fun _ => 1/2, 0⟩ initialState
        LevelType.CHEWING).playerScale ∧
    (startLevel (fun _ => 0) ⟨fun _ => 1/2, 0⟩ initialState LevelType.CHEWING).playerScale
      ≤ 10 ∧
    (∀ a ∈ [(100 : ℚ)], 0 ≤ a) ∧
    (1 ≤ ([(100 : ℚ)].foldl growPlayer (startLevel (fun _ => 0) ⟨fun _ => 1/2, 0⟩
          initialState LevelType.CHEWING)).playerScale ∧
      ([(100 : ℚ)].foldl growPlayer (startLevel (fun _ => 0) ⟨fun _ => 1/2, 0⟩
          initialState LevelType.CHEWING)).playerScale ≤ 10) ∧
    (startLevel (fun _ => 0) ⟨fun _ => 1/2, 0⟩ initialState LevelType.CHEWING).playerScale
      = 1 ∧
    (growPlayer (startLevel (fun _ => 0) ⟨fun _ => 1/2, 0⟩ initialState LevelType.CHEWING)
        100).playerScale = 10 := by
  refine ⟨by decide, by decide, by decide,
    (c5_growPlayer_scale_bounds _ [(100 : ℚ)]).1 (by decide) (by decide) (by decide),
    by decide,
    (c5_growPlayer_scale_bounds (startLevel (fun _ => 0) ⟨fun _ => 1/2, 0⟩ initialState
      LevelType.CHEWING) [(100 : ℚ)]).2.2 (by decide)⟩

-- ---------------------------------------------------------------------------
-- C6
-- ---------------------------------------------------------------------------

/-- An element of an arbitrary interleaving of `damageLeaf`/`healLeaf`
calls. -/
inductive LeafOp where
  | damage (amount : ℚ)
  | heal (amount : ℚ)

/-- Apply one `damageLeaf`/`healLeaf` call. -/
def applyLeafOp (s : GameState) (op : LeafOp) : GameState :=
  match op with
  | LeafOp.damage a => damageLeaf s a
  | LeafOp.heal a => healLeaf s a

/-- The argument of a `damageLeaf`/`healLeaf` call. -/
def LeafOp.amount : LeafOp → ℚ
  | damage a => a
  | heal a => a

/-- `damageLeaf` leaves the health unchanged after the win and otherwise
clamps it below at 0. -/
theorem damageLeaf_leafHealth (s : GameState) (a : ℚ) :
    (damageLeaf s a).leafHealth =
      if s.isLevelComplete then s.leafHealth else max (s.leafHealth - a) 0 := by
  simp only [damageLeaf]
  split <;> rfl

/-- `healLeaf` leaves the health unchanged after the win and otherwise
clamps it above at 100. -/
theorem healLeaf_leafHealth (s : GameState) (a : ℚ) :
    (healLeaf s a).leafHealth =
      if s.isLevelComplete then s.leafHealth else min (s.leafHealth + a) 100 := by
  simp only [healLeaf]
  split
  · rfl
  · split <;> rfl

/-- One `damageLeaf`/`healLeaf` call with a non-negative amount keeps the
health in `[0, 100]`. -/
theorem applyLeafOp_bounds (s : GameState) (op : LeafOp)
    (h0 : 0 ≤ s.leafHealth) (h100 : s.leafHealth ≤ 100) (ha : 0 ≤ op.amount) :
    0 ≤ (applyLeafOp s op).leafHealth ∧ (applyLeafOp s op).leafHealth ≤ 100 := by
  cases op with
  | damage a =>
    have ha' : 0 ≤ a := ha
    rw [show applyLeafOp s (LeafOp.damage a) = damageLeaf s a from rfl,
      damageLeaf_leafHealth]
    split
    · exact ⟨h0, h100⟩
    · exact ⟨le_max_right _ _, max_le (by linarith) (by norm_num)⟩
  | heal a =>
    have ha' : 0 ≤ a := ha
    rw [show applyLeafOp s (LeafOp.heal a) = healLeaf s a from rfl, healLeaf_leafHealth]
    split
    · exact ⟨h0, h100⟩
    · exact ⟨le_min (by linarith) (by norm_num), min_le_right _ _⟩

/-- A `foldl` of leaf calls with non-negative amounts keeps the health in
`[0, 100]`. -/
theorem applyLeafOp_foldl_bounds (ops : List LeafOp) (s : GameState)
    (h0 : 0 ≤ s.leafHealth) (h100 : s.leafHealth ≤ 100)
    (hpos : ∀ op ∈ ops, 0 ≤ op.amount) :
    0 ≤ (ops.foldl applyLeafOp s).leafHealth ∧
      (ops.foldl applyLeafOp s).leafHealth ≤ 100 := by
  induction ops generalizing s with
  | nil => exact ⟨h0, h100⟩
  | cons op tl ih =>
    obtain ⟨h0', h100'⟩ :=
      applyLeafOp_bounds s op h0 h100 (hpos op (List.mem_cons_self op tl))
    exact ih _ h0' h100' (fun b hb => hpos b (List.mem_cons_of_mem _ hb))

/-- C6: every interleaving of `damageLeaf`/`healLeaf` calls with
non-negative amounts keeps `leafHealth` in `[0, 100]`; once
`isLevelComplete` is true both calls return the state unchanged (the health
can never change after the win); and a heal that reaches 100 sets the
health, the completion flag and the completion narrative index in the one
returned state (a single atomic update). -/
theorem c6_leafHealth_invariants (s : GameState) :
    ((ops : List LeafOp) → 0 ≤ s.leafHealth → s.leafHealth ≤ 100 →
      (∀ op ∈ ops, 0 ≤ op.amount) →
      0 ≤ (ops.foldl applyLeafOp s).leafHealth ∧
        (ops.foldl applyLeafOp s).leafHealth ≤ 100) ∧
    ((a : ℚ) → s.isLevelComplete = true → damageLeaf s a = s ∧ healLeaf s a = s) ∧
    ((a : ℚ) → s.isLevelComplete = false → 100 ≤ s.leafHealth + a →
      healLeaf s a = { s with leafHealth := 100, isLevelComplete := true,
                              narrativeIndex := 2 }) := by
  refine ⟨fun ops h0 h100 hpos => applyLeafOp_foldl_bounds ops s h0 h100 hpos, ?_, ?_⟩
  · intro a hC
    constructor
    · simp [damageLeaf, hC]
    · simp [healLeaf, hC]
  · intro a hC h100
    have hmin : jsMin (s.leafHealth + a) 100 = 100 := by
      rw [jsMin_eq_min]
      exact min_eq_right h100
    simp [healLeaf, hC, hmin]

/-- Witness for C6 on a freshly started WIND level: the fold
`[damage 10, heal 99]` stays in `[0, 100]`; a heal reaching 100 produces
health, completion and the narrative checkpoint in one atomic state; and on
a completed state (here via `selectVehicle('TEAR')`) damage and heal are
exact no-ops. -/
theorem c6_witness :
    (0 : ℚ) ≤ (startLevel (fun _ => 0) ⟨fun _ => 1/2, 0⟩ initialState
        LevelType.WIND).leafHealth ∧
    (0 ≤ ([LeafOp.damage 10, LeafOp.heal 99].foldl applyLeafOp
        (startLevel (fun _ => 0) ⟨fun _ => 1/2, 0⟩ initialState LevelType.WIND)).leafHealth ∧
      ([LeafOp.damage 10, LeafOp.heal 99].foldl applyLeafOp
        (startLevel (fun _ => 0) ⟨fun _ => 1/2, 0⟩ initialState
          LevelType.WIND)).leafHealth ≤ 100) ∧
    (healLeaf (startLevel (fun _ => 0) ⟨fun _ => 1/2, 0⟩ initialState LevelType.WIND) 100
      = { startLevel (fun _ => 0) ⟨fun _ => 1/2, 0⟩ initialState LevelType.WIND with
          leafHealth := 100, isLevelComplete := true, narrativeIndex := 2 }) ∧
    (damageLeaf (selectVehicle (startLevel (fun _ => 0) ⟨fun _ => 1/2, 0⟩ initialState
          LevelType.WIND) "TEAR") 10
        = selectVehicle (startLevel (fun _ => 0) ⟨fun _ => 1/2, 0⟩ initialState
            LevelType.WIND) "TEAR" ∧
      healLeaf (selectVehicle (startLevel (fun _ => 0) ⟨fun _ => 1/2, 0⟩ initialState
          LevelType.WIND) "TEAR") 10
        = selectVehicle (startLevel (fun _ => 0) ⟨fun _ => 1/2, 0⟩ initialState
            LevelType.WIND) "TEAR") := by
  refine ⟨by decide,
    (c6_leafHealth_invariants _).1 [LeafOp.damage 10, LeafOp.heal 99]
      (by decide) (by decide) (by decide),
    (c6_leafHealth_invariants _).2.2 100 (by decide) ?_,
    (c6_leafHealth_invariants _).2.1 10 (by decide)⟩
  show (100 : ℚ) ≤ 0 + 100
  norm_num

-- ---------------------------------------------------------------------------
-- C7
-- ---------------------------------------------------------------------------

/-- Removing the elements satisfying `p` shortens a list by exactly the
number of such elements. -/
theorem length_filter_not_add_countP {α : Type} (l : List α) (p : α → Bool) :
    (l.filter (fun a => !p a)).length + l.countP p = l.length := by
  induction l with
  | nil => rfl
  | cons x tl ih =>
    by_cases hp : p x <;> simp [List.filter_cons, List.countP_cons, hp] <;> omega

/-- A fragment id produced by `popBubble` is never the popped bubble's own
id (it is strictly longer). -/
theorem frag_id_ne (id x : String) : ¬("frag-" ++ id ++ "-" ++ x = id) := by
  intro hEq
  have hlen := congrArg String.length hEq
  simp only [String.length_append] at hlen
  have h5 : "frag-".length = 5 := rfl
  have h1 : "-".length = 1 := rfl
  omega

/-- The id of a generated fragment. -/
theorem mkFragment_id (b : EnvFeature) (id : String) (i : ℕ) (r : RNG) :
    (mkFragment b id i r).1.id = "frag-" ++ id ++ "-" ++ toString i := rfl

/-- The feature type of a generated fragment. -/
theorem mkFragment_type (b : EnvFeature) (id : String) (i : ℕ) (r : RNG) :
    (mkFragment b id i r).1.type = FeatureType.FRAGMENT := rfl

/-- C7: on any state holding exactly one feature with the given id,
`popBubble(id)` removes it and appends exactly three FRAGMENT features, so
the feature count rises by exactly 2 and `bubblesPopped` by exactly 1; no
feature with the popped id remains. -/
theorem c7_popBubble_fanout (s : GameState) (id : String) (r : RNG)
    (h : s.envFeatures.countP (fun f => decide (f.id = id)) = 1) :
    (popBubble s id r).envFeatures.length = s.envFeatures.length + 2 ∧
    (popBubble s id r).bubblesPopped = s.bubblesPopped + 1 ∧
    (popBubble s id r).envFeatures.countP (fun f => decide (f.id = id)) = 0 ∧
    ∃ fs : List EnvFeature, fs.length = 3 ∧
      (∀ f ∈ fs, f.type = FeatureType.FRAGMENT) ∧
      (popBubble s id r).envFeatures =
        s.envFeatures.filter (fun f => !decide (f.id = id)) ++ fs := by
  obtain ⟨bubble, hb⟩ :
      ∃ b, s.envFeatures.find? (fun f => decide (f.id = id)) = some b := by
    have hex : ∃ f ∈ s.envFeatures, decide (f.id = id) = true := by
      rw [← List.countP_pos_iff]
      omega
    have hsome := List.find?_isSome.mpr hex
    exact Option.isSome_iff_exists.mp hsome
  have hflen : (s.envFeatures.filter (fun f => !decide (f.id = id))).length + 1
      = s.envFeatures.length := by
    have := length_filter_not_add_countP s.envFeatures (fun f => decide (f.id = id))
    omega
  have hfcount : (s.envFeatures.filter
      (fun f => !decide (f.id = id))).countP (fun f => decide (f.id = id)) = 0 := by
    rw [List.countP_eq_zero]
    intro f hf
    have := (List.mem_filter.mp hf).2
    simpa using this
  simp only [popBubble, hb]
  refine ⟨?_, ?_, ?_, ?_⟩
  · simp only [List.length_append, List.length_cons, List.length_nil]
    omega
  · trivial
  · simp only [List.countP_append, hfcount, List.countP_cons, List.countP_nil,
      mkFragment_id]
    simp [frag_id_ne]
  · refine ⟨[(mkFragment bubble id 0 r).1,
      (mkFragment bubble id 1 (mkFragment bubble id 0 r).2).1,
      (mkFragment bubble id 2 (mkFragment bubble id 1 (mkFragment bubble id 0 r).2).2).1],
      rfl, ?_, rfl⟩
    intro f hf
    simp only [List.mem_cons, List.not_mem_nil, or_false] at hf
    rcases hf with h | h | h <;> rw [h, mkFragment_type]

-- ---------------------------------------------------------------------------
-- C1
-- ---------------------------------------------------------------------------

/-- The level→mode table in the words of the spec: SLINGSHOT for the
Prologue, OBSERVER for Home, CLICK for Sun, LURE otherwise (spec-side
definition, compared against the `startLevel` implementation). -/
def specInteractionMode : LevelType → InteractionMode
  | LevelType.PROLOGUE => InteractionMode.SLINGSHOT
  | LevelType.HOME => InteractionMode.OBSERVER
  | LevelType.SUN => InteractionMode.CLICK
  | _ => InteractionMode.LURE

/-- C1 (amended): for every level, immediately after `startLevel(L)` the
connections are empty, `isLevelComplete` is false, `narrativeIndex` is 0,
every per-mechanic counter equals its zero value, the tethered and dragging
node ids are null, and `interactionMode` follows the level→mode table; the
hovered node id, however, is **not** reset — `startLevel`'s `set` does not
list `hoveredNodeId`, so it keeps its previous value. -/
theorem c1_startLevel_resets (msin : ℚ → ℚ) (r : RNG) (s : GameState)
    (level : LevelType) :
    (startLevel msin r s level).connections = [] ∧
    (startLevel msin r s level).isLevelComplete = false ∧
    (startLevel msin r s level).narrativeIndex = 0 ∧
    (startLevel msin r s level).playerScale = 1 ∧
    (startLevel msin r s level).leafHealth = 0 ∧
    (startLevel msin r s level).rainLevel = 0 ∧
    (startLevel msin r s level).fragmentsCollected = 0 ∧
    (startLevel msin r s level).bubblesPopped = 0 ∧
    (startLevel msin r s level).nextSequenceIndex = 0 ∧
    (startLevel msin r s level).tetheredNodeId = none ∧
    (startLevel msin r s level).draggingNodeId = none ∧
    (startLevel msin r s level).hoveredNodeId = s.hoveredNodeId ∧
    (startLevel msin r s level).interactionMode = specInteractionMode level := by
  cases level <;>
    exact ⟨rfl, rfl, rfl, rfl, rfl, rfl, rfl, rfl, rfl, rfl, rfl, rfl, rfl⟩

/-- C1 counterexample: the claim "the hovered node id is null immediately
after `startLevel`" is false — hovering a node and then starting a level
leaves the stale hovered id in place, because `startLevel`'s reset `set`
omits `hoveredNodeId`. -/
theorem c1_counterexample :
    (startLevel (fun _ => 0) ⟨fun _ => 1/2, 0⟩
        (setHoveredNode initialState (some "n1-0")) LevelType.NAME).hoveredNodeId
      = some "n1-0" ∧
    some "n1-0" ≠ (none : Option String) := ⟨rfl, by decide⟩

-- ---------------------------------------------------------------------------
-- C4
-- ---------------------------------------------------------------------------

/-- C4: on the sequence level (CHAPTER_1), a `completeConnection` attempt
whose pair is not exactly `(sequenceOrder[cursor], sequenceOrder[cursor+1])`
in either direction is silently rejected: the returned state is the input
state with only the drag id cleared (connections, nodes, counters and
completion untouched); concretely, connecting `sequenceOrder[0]` to
`sequenceOrder[2]` on a fresh Language level leaves connections empty. -/
theorem c4_sequence_mismatch_rejected :
    (∀ (s : GameState) (a targetId : String),
      s.currentLevel = LevelType.CHAPTER_1 →
      s.draggingNodeId = some a →
      (∀ cs ct, s.sequenceOrder[s.nextSequenceIndex]? = some cs →
        s.sequenceOrder[s.nextSequenceIndex + 1]? = some ct →
        ¬((a = cs ∧ targetId = ct) ∨ (a = ct ∧ targetId = cs))) →
      completeConnection s targetId = { s with draggingNodeId := none }) ∧
    (completeConnection
      (startDragConnection
        (startLevel (fun _ => 0) ⟨fun _ => 1/2, 0⟩ initialState LevelType.CHAPTER_1)
        "n1-0")
      "n1-2").connections = [] := by
  constructor
  · intro s a targetId hLvl hDrag hmismatch
    have hConn : ¬s.currentLevel = LevelType.CONNECTION := by
      rw [hLvl]
      intro hx
      exact LevelType.noConfusion hx
    by_cases hat : a = targetId
    · simp [completeConnection, hConn, hDrag, hat]
    · by_cases hany : s.connections.any (connMatches a targetId) = true
      · simp [completeConnection, hConn, hDrag, hat, hany]
      · rcases h1 : s.sequenceOrder[s.nextSequenceIndex]? with _ | cs
        · simp [completeConnection, hConn, hDrag, hat, hany, hLvl, h1]
        · rcases h2 : s.sequenceOrder[s.nextSequenceIndex + 1]? with _ | ct
          · simp [completeConnection, hConn, hDrag, hat, hany, hLvl, h1, h2]
          · simp [completeConnection, hConn, hDrag, hat, hany, hLvl, h1, h2,
              hmismatch cs ct h1 h2]
  · decide

/-- Witness for C4: on a fresh Language level, dragging from
`sequenceOrder[1]` and connecting to `sequenceOrder[3]` (a non-consecutive
pair) returns the state with only the drag cleared. -/
theorem c4_witness :
    (startDragConnection (startLevel (fun _ => 0) ⟨fun _ => 1/2, 0⟩ initialState
        LevelType.CHAPTER_1) "n1-1").currentLevel = LevelType.CHAPTER_1 ∧
    (startDragConnection (startLevel (fun _ => 0) ⟨fun _ => 1/2, 0⟩ initialState
        LevelType.CHAPTER_1) "n1-1").draggingNodeId = some "n1-1" ∧
    completeConnection
        (startDragConnection (startLevel (fun _ => 0) ⟨fun _ => 1/2, 0⟩ initialState
          LevelType.CHAPTER_1) "n1-1") "n1-3"
      = { startDragConnection (startLevel (fun _ => 0) ⟨fun _ => 1/2, 0⟩ initialState
            LevelType.CHAPTER_1) "n1-1" with draggingNodeId := none } := by
  refine ⟨rfl, rfl, c4_sequence_mismatch_rejected.1 _ "n1-1" "n1-3" rfl rfl ?_⟩
  intro cs ct h1 h2
  rw [show (startDragConnection (startLevel (fun _ => 0) ⟨fun _ => 1/2, 0⟩ initialState
    LevelType.CHAPTER_1) "n1-1").sequenceOrder
      = ["n1-0", "n1-1", "n1-2", "n1-3", "n1-4", "n1-5"] from rfl] at h1 h2
  rw [show (startDragConnection (startLevel (fun _ => 0) ⟨fun _ => 1/2, 0⟩ initialState
    LevelType.CHAPTER_1) "n1-1").nextSequenceIndex = 0 from rfl] at h1 h2
  cases h1
  cases h2
  decide

/-- Witness for C7: popping `bubble-0` on a freshly started NAME level
(15 bubbles, each id occurring once) raises the feature count by exactly 2
and the bubble counter by exactly 1. -/
theorem c7_witness :
    (startLevel (fun _ => 0) ⟨fun _ => 1/2, 0⟩ initialState
        LevelType.NAME).envFeatures.countP (fun f => decide (f.id = "bubble-0")) = 1 ∧
    (popBubble (startLevel (fun _ => 0) ⟨fun _ => 1/2, 0⟩ initialState LevelType.NAME)
        "bubble-0" ⟨fun _ => 1/3, 0⟩).envFeatures.length
      = (startLevel (fun _ => 0) ⟨fun _ => 1/2, 0⟩ initialState
          LevelType.NAME).envFeatures.length + 2 ∧
    (popBubble (startLevel (fun _ => 0) ⟨fun _ => 1/2, 0⟩ initialState LevelType.NAME)
        "bubble-0" ⟨fun _ => 1/3, 0⟩).bubblesPopped
      = (startLevel (fun _ => 0) ⟨fun _ => 1/2, 0⟩ initialState
          LevelType.NAME).bubblesPopped + 1 :=
  ⟨by decide,
   (c7_popBubble_fanout _ "bubble-0" ⟨fun _ => 1/3, 0⟩ (by decide)).1,
   (c7_popBubble_fanout _ "bubble-0" ⟨fun _ => 1/3, 0⟩ (by decide)).2.1⟩

-- ---------------------------------------------------------------------------
-- C2
-- ---------------------------------------------------------------------------

/-- How often a given unordered pair occurs in a connection list. -/
def countPair (l : List (String × String)) (a b : String) : ℕ :=
  l.countP (connMatches a b)

/-- The duplicate test is symmetric in the two ids. -/
theorem connMatches_comm (a b : String) (c : String × String) :
    connMatches a b c = connMatches b a c := by
  unfold connMatches
  exact decide_eq_decide.mpr or_comm

/-- `startDragConnection` only touches the drag id. -/
theorem startDragConnection_currentLevel (s : GameState) (id : String) :
    (startDragConnection s id).currentLevel = s.currentLevel := rfl

/-- `startDragConnection` records the new drag source. -/
theorem startDragConnection_draggingNodeId (s : GameState) (id : String) :
    (startDragConnection s id).draggingNodeId = some id := rfl

/-- `startDragConnection` leaves the connection list alone. -/
theorem startDragConnection_connections (s : GameState) (id : String) :
    (startDragConnection s id).connections = s.connections := rfl

/-- `startDragConnection` leaves the tether alone. -/
theorem startDragConnection_tetheredNodeId (s : GameState) (id : String) :
    (startDragConnection s id).tetheredNodeId = s.tetheredNodeId := rfl

/-- The commit keeps the current level. -/
theorem commitConnection_currentLevel (s : GameState) (src tgt : String) :
    (commitConnection s src tgt).currentLevel = s.currentLevel := rfl

/-- The commit appends exactly the attempted pair. -/
theorem commitConnection_connections (s : GameState) (src tgt : String) :
    (commitConnection s src tgt).connections = s.connections ++ [(src, tgt)] := rfl

/-- The commit clears the drag id. -/
theorem commitConnection_draggingNodeId (s : GameState) (src tgt : String) :
    (commitConnection s src tgt).draggingNodeId = none := rfl

/-- The commit keeps the tether. -/
theorem commitConnection_tetheredNodeId (s : GameState) (src tgt : String) :
    (commitConnection s src tgt).tetheredNodeId = s.tetheredNodeId := rfl

/-- `completeConnection` either returns the input state with only the drag
cleared (every rejection path), or commits the pair `(src, targetId)` —
and then only when the unordered pair was absent from the connection
list. -/
theorem completeConnection_cases (s : GameState) (targetId : String) :
    completeConnection s targetId = { s with draggingNodeId := none } ∨
    ∃ src, completeConnection s targetId = commitConnection s src targetId ∧
      s.connections.any (connMatches src targetId) = false ∧
      (if s.currentLevel = LevelType.CONNECTION then s.tetheredNodeId
       else s.draggingNodeId) = some src := by
  by_cases hc : s.currentLevel = LevelType.CONNECTION
  · rcases ht : s.tetheredNodeId with _ | src
    · left
      simp [completeConnection, hc, ht]
    · by_cases hat : src = targetId
      · left
        simp [completeConnection, hc, ht, hat]
      · by_cases hany : s.connections.any (connMatches src targetId) = true
        · left
          simp [completeConnection, hc, ht, hat, hany]
        · right
          have hch : ¬s.currentLevel = LevelType.CHAPTER_1 := by
            rw [hc]
            intro hx
            exact LevelType.noConfusion hx
          exact ⟨src, by simp [completeConnection, hc, ht, hat, hany, hch],
            by simpa using hany, by simp [hc, ht]⟩
  · rcases hd : s.draggingNodeId with _ | src
    · left
      simp [completeConnection, hc, hd]
    · by_cases hat : src = targetId
      · left
        simp [completeConnection, hc, hd, hat]
      · by_cases hany : s.connections.any (connMatches src targetId) = true
        · left
          simp [completeConnection, hc, hd, hat, hany]
        · by_cases hch : s.currentLevel = LevelType.CHAPTER_1
          · rcases h1 : s.sequenceOrder[s.nextSequenceIndex]? with _ | cs
            · left
              simp [completeConnection, hc, hd, hat, hany, hch, h1]
            · rcases h2 : s.sequenceOrder[s.nextSequenceIndex + 1]? with _ | ct
              · left
                simp [completeConnection, hc, hd, hat, hany, hch, h1, h2]
              · by_cases hv : (src = cs ∧ targetId = ct) ∨ (src = ct ∧ targetId = cs)
                · right
                  exact ⟨src,
                    by simp [completeConnection, hc, hd, hat, hany, hch, h1, h2, hv],
                    by simpa using hany, by simp [hc, hd]⟩
                · left
                  simp [completeConnection, hc, hd, hat, hany, hch, h1, h2, hv]
          · right
            exact ⟨src, by simp [completeConnection, hc, hd, hat, hany, hch],
              by simpa using hany, by simp [hc, hd]⟩

/-- C2: `completeConnection` never inserts a duplicate unordered pair —
the "each pair at most once" invariant is preserved by every call, and the
double-call scenario (drag `a`, connect `b`, drag `a`, connect `b` again on
a non-sequence, non-tether level) leaves exactly one connection holding the
pair. -/
theorem c2_no_duplicate_connection (s : GameState) :
    (∀ targetId : String, (∀ a b, countPair s.connections a b ≤ 1) →
      ∀ a b, countPair (completeConnection s targetId).connections a b ≤ 1) ∧
    (∀ a b : String,
      s.currentLevel ≠ LevelType.CHAPTER_1 → s.currentLevel ≠ LevelType.CONNECTION →
      a ≠ b → countPair s.connections a b = 0 →
      countPair (completeConnection (startDragConnection (completeConnection
        (startDragConnection s a) b) a) b).connections a b = 1) := by
  constructor
  · intro targetId hinv a b
    rcases completeConnection_cases s targetId with h | ⟨src, h, hany, hsrc⟩
    · rw [h]
      exact hinv a b
    · rw [h]
      show (s.connections ++ [(src, targetId)]).countP (connMatches a b) ≤ 1
      rw [List.countP_append]
      by_cases hm : connMatches a b (src, targetId) = true
      · have hz : s.connections.countP (connMatches a b) = 0 := by
          rw [List.countP_eq_zero]
          intro c hc
          have hf := (List.any_eq_false.mp hany) c hc
          have hmm : (src = a ∧ targetId = b) ∨ (src = b ∧ targetId = a) := by
            simpa [connMatches] using hm
          rcases hmm with ⟨h1, h2⟩ | ⟨h1, h2⟩
          · subst h1
            subst h2
            exact hf
          · subst h1
            subst h2
            rw [connMatches_comm]
            exact hf
        rw [hz]
        simp [List.countP_cons, hm]
      · simp only [List.countP_cons, List.countP_nil, hm]
        simp only [Bool.false_eq_true, if_false]
        have := hinv a b
        rw [countPair] at this
        omega
  · intro a b hch hcn hab h0
    rw [countPair] at h0
    have hany0 : s.connections.any (connMatches a b) = false := by
      rw [List.any_eq_false]
      intro c hc
      exact List.countP_eq_zero.mp h0 c hc
    have e1 : completeConnection (startDragConnection s a) b
        = commitConnection (startDragConnection s a) a b := by
      simp [completeConnection, startDragConnection_currentLevel,
        startDragConnection_draggingNodeId, startDragConnection_connections,
        hcn, hch, hab, hany0]
    rw [e1]
    have hany1 : (commitConnection (startDragConnection s a) a b).connections.any
        (connMatches a b) = true := by
      show (s.connections ++ [(a, b)]).any (connMatches a b) = true
      rw [List.any_eq_true]
      refine ⟨(a, b), List.mem_append_right _ (List.mem_singleton.mpr rfl), ?_⟩
      simp [connMatches]
    have e2 : completeConnection (startDragConnection
          (commitConnection (startDragConnection s a) a b) a) b
        = { startDragConnection (commitConnection (startDragConnection s a) a b) a
            with draggingNodeId := none } := by
      rcases completeConnection_cases
          (startDragConnection (commitConnection (startDragConnection s a) a b) a) b
        with h | ⟨src2, h, hfalse, hsrc⟩
      · exact h
      · exfalso
        rw [if_neg (by
          rw [startDragConnection_currentLevel, commitConnection_currentLevel,
            startDragConnection_currentLevel]
          exact hcn), startDragConnection_draggingNodeId] at hsrc
        injection hsrc with hsrc
        subst hsrc
        rw [startDragConnection_connections, hany1] at hfalse
        exact Bool.noConfusion hfalse
    rw [e2]
    show (s.connections ++ [(a, b)]).countP (connMatches a b) = 1
    rw [List.countP_append, h0]
    simp [List.countP_cons, connMatches]

/-- Witness for C2: on a freshly started NAME level (no sequence check, no
tether), dragging `x` and connecting `y` twice yields exactly one
connection holding the unordered pair. -/
theorem c2_witness :
    (startLevel (fun _ => 0) ⟨fun _ => 1/2, 0⟩ initialState LevelType.NAME).currentLevel
      ≠ LevelType.CHAPTER_1 ∧
    (startLevel (fun _ => 0) ⟨fun _ => 1/2, 0⟩ initialState LevelType.NAME).currentLevel
      ≠ LevelType.CONNECTION ∧
    ("x" : String) ≠ "y" ∧
    countPair (startLevel (fun _ => 0) ⟨fun _ => 1/2, 0⟩ initialState
        LevelType.NAME).connections "x" "y" = 0 ∧
    countPair (completeConnection (startDragConnection (completeConnection
        (startDragConnection (startLevel (fun _ => 0) ⟨fun _ => 1/2, 0⟩ initialState
          LevelType.NAME) "x") "y") "x") "y").connections "x" "y" = 1 :=
  ⟨by decide, by decide, by decide, by decide,
   (c2_no_duplicate_connection _).2 "x" "y" (by decide) (by decide) (by decide)
     (by decide)⟩

-- ---------------------------------------------------------------------------
-- C3
-- ---------------------------------------------------------------------------

/-- The completion flag written by a commit is the source's set-coverage
count: `new Set(newConnections.flat()).size >= nodes.length && nodes.length
> 0`. -/
theorem commitConnection_isLevelComplete (s : GameState) (src tgt : String) :
    (commitConnection s src tgt).isLevelComplete
      = decide (s.nodes.length ≤ ((s.connections ++ [(src, tgt)]).flatMap
          (fun c => [c.1, c.2])).dedup.length ∧ 0 < s.nodes.length) := rfl

/-- Counting argument: when every id mentioned by the connections is a node
id and node ids are distinct, the source's size comparison of the deduped
endpoint list against the node count is exactly "every node id appears in
some connection" (on a non-empty node list). -/
theorem coverage_iff_card (nodes : List NodeData) (conns : List (String × String))
    (hsub : ∀ x ∈ conns.flatMap (fun c => [c.1, c.2]), x ∈ nodes.map (fun n => n.id))
    (hnodup : (nodes.map (fun n => n.id)).Nodup) :
    (nodes.length ≤ (conns.flatMap (fun c => [c.1, c.2])).dedup.length ∧
        0 < nodes.length) ↔
      (nodes ≠ [] ∧ ∀ n ∈ nodes, n.id ∈ conns.flatMap (fun c => [c.1, c.2])) := by
  have hL : (conns.flatMap (fun c => [c.1, c.2])).toFinset.card
      = (conns.flatMap (fun c => [c.1, c.2])).dedup.length := List.card_toFinset _
  have hids : (nodes.map (fun n => n.id)).toFinset.card = nodes.length := by
    rw [List.toFinset_card_of_nodup hnodup, List.length_map]
  have hsub' : (conns.flatMap (fun c => [c.1, c.2])).toFinset
      ⊆ (nodes.map (fun n => n.id)).toFinset := by
    intro x hx
    rw [List.mem_toFinset] at hx ⊢
    exact hsub x hx
  constructor
  · rintro ⟨hcard, hpos⟩
    have hEq : (conns.flatMap (fun c => [c.1, c.2])).toFinset
        = (nodes.map (fun n => n.id)).toFinset := by
      apply Finset.eq_of_subset_of_card_le hsub'
      rw [hids, hL]
      exact hcard
    refine ⟨List.ne_nil_of_length_pos hpos, fun n hn => ?_⟩
    have hmem : n.id ∈ (nodes.map (fun n => n.id)).toFinset := by
      rw [List.mem_toFinset]
      exact List.mem_map_of_mem _ hn
    rw [← hEq, List.mem_toFinset] at hmem
    exact hmem
  · rintro ⟨hne, hcov⟩
    have hsup : (nodes.map (fun n => n.id)).toFinset
        ⊆ (conns.flatMap (fun c => [c.1, c.2])).toFinset := by
      intro x hx
      rw [List.mem_toFinset] at hx ⊢
      obtain ⟨n, hn, rfl⟩ := List.mem_map.mp hx
      exact hcov n hn
    refine ⟨?_, List.length_pos.mpr hne⟩
    calc nodes.length = (nodes.map (fun n => n.id)).toFinset.card := hids.symm
      _ ≤ (conns.flatMap (fun c => [c.1, c.2])).toFinset.card := Finset.card_le_card hsup
      _ = (conns.flatMap (fun c => [c.1, c.2])).dedup.length := hL

/-- The Language-level scenario start: `startLevel('CHAPTER_1')` with a
fixed random stream. -/
def chapter1Start : GameState :=
  startLevel (fun _ => 0) ⟨fun _ => 1/2, 0⟩ initialState LevelType.CHAPTER_1

/-- The state after connecting the first `k` consecutive pairs of
`sequenceOrder` on the Language level (drag pair member `i`, connect pair
member `i+1`). -/
def chapter1After (k : ℕ) : GameState :=
  (List.range k).foldl
    (fun s i => completeConnection
      (startDragConnection s (chapter1Start.sequenceOrder.getD i ""))
      (chapter1Start.sequenceOrder.getD (i + 1) ""))
    chapter1Start

/-- C3: after a successful `completeConnection` commit whose endpoints are
node ids (and with distinct node ids), `isLevelComplete` is true exactly
when the node list is non-empty and every node id appears in at least one
connection; on the Language level, connecting the consecutive pairs of
`sequenceOrder` completes the level exactly after the last (fifth) pair. -/
theorem c3_completion_iff_coverage :
    (∀ (s : GameState) (targetId : String),
      (completeConnection s targetId).connections ≠ s.connections →
      (∀ x ∈ (completeConnection s targetId).connections.flatMap (fun c => [c.1, c.2]),
        x ∈ s.nodes.map (fun n => n.id)) →
      (s.nodes.map (fun n => n.id)).Nodup →
      ((completeConnection s targetId).isLevelComplete = true ↔
        (s.nodes ≠ [] ∧ ∀ n ∈ s.nodes,
          n.id ∈ (completeConnection s targetId).connections.flatMap
            (fun c => [c.1, c.2])))) ∧
    ((chapter1After 0).isLevelComplete = false ∧
     (chapter1After 1).isLevelComplete = false ∧
     (chapter1After 2).isLevelComplete = false ∧
     (chapter1After 3).isLevelComplete = false ∧
     (chapter1After 4).isLevelComplete = false ∧
     (chapter1After 5).isLevelComplete = true) := by
  constructor
  · intro s targetId hne hsub hnodup
    rcases completeConnection_cases s targetId with h | ⟨src, h, hany, hsrc⟩
    · exact absurd (by rw [h]) hne
    · rw [h] at hsub ⊢
      rw [commitConnection_connections] at hsub ⊢
      rw [commitConnection_isLevelComplete, decide_eq_true_eq]
      exact coverage_iff_card s.nodes (s.connections ++ [(src, targetId)]) hsub hnodup
  · exact ⟨by decide, by decide, by decide, by decide, by decide, by decide⟩

/-- Witness for C3: committing the last consecutive pair on the Language
level satisfies the hypotheses of the coverage characterisation (a real
commit, endpoints are node ids, node ids distinct), and the instantiated
equivalence holds. -/
theorem c3_witness :
    (completeConnection (startDragConnection (chapter1After 4) "n1-4")
        "n1-5").connections ≠ (startDragConnection (chapter1After 4) "n1-4").connections ∧
    (∀ x ∈ (completeConnection (startDragConnection (chapter1After 4) "n1-4")
        "n1-5").connections.flatMap (fun c => [c.1, c.2]),
      x ∈ (startDragConnection (chapter1After 4) "n1-4").nodes.map (fun n => n.id)) ∧
    ((startDragConnection (chapter1After 4) "n1-4").nodes.map (fun n => n.id)).Nodup ∧
    ((completeConnection (startDragConnection (chapter1After 4) "n1-4")
        "n1-5").isLevelComplete = true ↔
      ((startDragConnection (chapter1After 4) "n1-4").nodes ≠ [] ∧
        ∀ n ∈ (startDragConnection (chapter1After 4) "n1-4").nodes,
          n.id ∈ (completeConnection (startDragConnection (chapter1After 4) "n1-4")
            "n1-5").connections.flatMap (fun c => [c.1, c.2]))) :=
  ⟨by decide, by decide, by decide,
   c3_completion_iff_coverage.1 (startDragConnection (chapter1After 4) "n1-4") "n1-5"
     (by decide) (by decide) (by decide)⟩

-- ---------------------------------------------------------------------------
-- C9
-- ---------------------------------------------------------------------------

